import Mathlib

/-!
Verification development for the fal-ai MCP server core:
the idempotency cache (`src/services/cache.ts`), the ACP error
normalizer (`src/utils/error-handler.ts`), the retrying invoker and
schema resolver (`src/services/fal-client.ts`) and the tool-call
handler (`src/tools/generator.ts`), shallowly embedded in Lean.
-/

set_option maxRecDepth 2000000

namespace FalMCP

/-- Model of a JSON value (a JavaScript plain value). Object fields are
kept in insertion order, as JavaScript objects do. -/
inductive JValue where
  | jnull
  | jbool (b : Bool)
  | jnum (n : Int)
  | jstr (s : String)
  | jarr (items : List JValue)
  | jobj (fields : List (String × JValue))

/-- Hex digit characters, lowercase, as produced by JSON escapes and hex digests. -/
def hexDigit (n : Nat) : Char :=
  if n < 10 then Char.ofNat (48 + n) else Char.ofNat (87 + n)

/-- The escape JSON.stringify applies to one character inside a string literal. -/
def jsonEscapeChar (c : Char) : String :=
  if c = Char.ofNat 34 then "\\\""
  else if c = Char.ofNat 92 then "\\\\"
  else if c = Char.ofNat 8 then "\\b"
  else if c = Char.ofNat 9 then "\\t"
  else if c = Char.ofNat 10 then "\\n"
  else if c = Char.ofNat 12 then "\\f"
  else if c = Char.ofNat 13 then "\\r"
  else if c.toNat < 32 then "\\u00" ++ String.mk [hexDigit (c.toNat / 16), hexDigit (c.toNat % 16)]
  else String.mk [c]

/-- JSON string literal as JSON.stringify produces it. -/
def jsonQuote (s : String) : String :=
  "\"" ++ String.join (s.data.map jsonEscapeChar) ++ "\""

mutual

/-- JSON.stringify (no indentation), with object fields serialized in list order. -/
def jsonStringify : JValue → String
  | .jnull => "null"
  | .jbool true => "true"
  | .jbool false => "false"
  | .jnum n => toString n
  | .jstr s => jsonQuote s
  | .jarr items => "[" ++ String.intercalate "," (jsonStringifyList items) ++ "]"
  | .jobj fields => "\x7b" ++ String.intercalate "," (jsonStringifyFields fields) ++ "\x7d"

/-- Serialize array elements. -/
def jsonStringifyList : List JValue → List String
  | [] => []
  | v :: rest => jsonStringify v :: jsonStringifyList rest

/-- Serialize object fields as quoted-key colon value. -/
def jsonStringifyFields : List (String × JValue) → List String
  | [] => []
  | (k, v) :: rest => (jsonQuote k ++ ":" ++ jsonStringify v) :: jsonStringifyFields rest

end

/-- UTF-8 encoding of one code point, as a list of byte values. -/
def utf8Bytes (c : Nat) : List Nat :=
  if c < 0x80 then [c]
  else if c < 0x800 then [0xc0 + c / 0x40, 0x80 + c % 0x40]
  else if c < 0x10000 then [0xe0 + c / 0x1000, 0x80 + (c / 0x40) % 0x40, 0x80 + c % 0x40]
  else [0xf0 + c / 0x40000, 0x80 + (c / 0x1000) % 0x40, 0x80 + (c / 0x40) % 0x40, 0x80 + c % 0x40]

/-- Bytes of the UTF-8 encoding of a string (what crypto.update receives). -/
def strBytes (s : String) : List Nat :=
  (s.data.map (fun ch => utf8Bytes ch.toNat)).flatten

/-- Right rotation of a 32-bit word. -/
def rotr32 (x n : Nat) : Nat :=
  (x >>> n) ||| ((x <<< (32 - n)) % 2 ^ 32)

/-- SHA-256 small sigma 0. -/
def ssig0 (x : Nat) : Nat := rotr32 x 7 ^^^ rotr32 x 18 ^^^ (x >>> 3)

/-- SHA-256 small sigma 1. -/
def ssig1 (x : Nat) : Nat := rotr32 x 17 ^^^ rotr32 x 19 ^^^ (x >>> 10)

/-- SHA-256 big sigma 0. -/
def bsig0 (x : Nat) : Nat := rotr32 x 2 ^^^ rotr32 x 13 ^^^ rotr32 x 22

/-- SHA-256 big sigma 1. -/
def bsig1 (x : Nat) : Nat := rotr32 x 6 ^^^ rotr32 x 11 ^^^ rotr32 x 25

/-- SHA-256 choice function. -/
def chF (x y z : Nat) : Nat := (x &&& y) ^^^ ((x ^^^ 0xffffffff) &&& z)

/-- SHA-256 majority function. -/
def majF (x y z : Nat) : Nat := (x &&& y) ^^^ (x &&& z) ^^^ (y &&& z)

/-- SHA-256 round constants, written in decimal. -/
def sha256K : List Nat :=
  [1116352408, 1899447441, 3049323471, 3921009573, 961987163, 1508970993,
   2453635748, 2870763221, 3624381080, 310598401, 607225278, 1426881987,
   1925078388, 2162078206, 2614888103, 3248222580, 3835390401, 4022224774,
   264347078, 604807628, 770255983, 1249150122, 1555081692, 1996064986,
   2554220882, 2821834349, 2952996808, 3210313671, 3336571891, 3584528711,
   113926993, 338241895, 666307205, 773529912, 1294757372, 1396182291,
   1695183700, 1986661051, 2177026350, 2456956037, 2730485921, 2820302411,
   3259730800, 3345764771, 3516065817, 3600352804, 4094571909, 275423344,
   430227734, 506948616, 659060556, 883997877, 958139571, 1322822218,
   1537002063, 1747873779, 1955562222, 2024104815, 2227730452, 2361852424,
   2428436474, 2756734187, 3204031479, 3329325298]

/-- SHA-256 initial hash values, written in decimal. -/
def sha256H0 : List Nat :=
  [1779033703, 3144134277, 1013904242, 2773480762, 1359893119, 2600822924, 528734635, 1541459225]

/-- Big-endian byte decomposition of a value into n bytes. -/
def beBytes (n v : Nat) : List Nat :=
  (List.range n).map (fun i => (v >>> (8 * (n - 1 - i))) % 256)

/-- SHA-256 padding: append 0x80, zero bytes, and the 64-bit big-endian bit length. -/
def sha256Pad (msg : List Nat) : List Nat :=
  let len := msg.length
  let k := (119 - len % 64) % 64
  msg ++ [0x80] ++ List.replicate k 0 ++ beBytes 8 (len * 8)

/-- Group bytes into big-endian 32-bit words. -/
def bytesToWords : List Nat → List Nat
  | b0 :: b1 :: b2 :: b3 :: rest =>
    ((((b0 <<< 8) ||| b1) <<< 8 ||| b2) <<< 8 ||| b3) :: bytesToWords rest
  | _ => []

/-- Extend 16 message-schedule words to 64. -/
def sha256Extend (w16 : List Nat) : List Nat :=
  (List.range 48).foldl
    (fun w _ =>
      let i := w.length
      w ++ [(ssig1 (w.getD (i - 2) 0) + w.getD (i - 7) 0 +
             ssig0 (w.getD (i - 15) 0) + w.getD (i - 16) 0) % 2 ^ 32])
    w16

/-- SHA-256 compression of one 64-byte block into the running hash state. -/
def sha256Compress (h : List Nat) (block : List Nat) : List Nat :=
  let w := sha256Extend (bytesToWords block)
  let s := (List.range 64).foldl
    (fun (st : List Nat) i =>
      match st with
      | [a, b, c, d, e, f, g, hh] =>
        let t1 := (hh + bsig1 e + chF e f g + sha256K.getD i 0 + w.getD i 0) % 2 ^ 32
        let t2 := (bsig0 a + majF a b c) % 2 ^ 32
        [(t1 + t2) % 2 ^ 32, a, b, c, (d + t1) % 2 ^ 32, e, f, g]
      | _ => st) h
  List.zipWith (fun x y => (x + y) % 2 ^ 32) h s

/-- Split a byte list into 64-byte chunks, with fuel bounding the number of
chunks; fuel equal to the list length always suffices. -/
def chunks64Go : Nat → List Nat → List (List Nat)
  | 0, _ => []
  | _, [] => []
  | fuel + 1, b :: rest => ((b :: rest).take 64) :: chunks64Go fuel ((b :: rest).drop 64)

/-- Split a byte list into 64-byte chunks. -/
def chunks64 (l : List Nat) : List (List Nat) := chunks64Go l.length l

/-- SHA-256 digest of a byte list, as eight 32-bit words. -/
def sha256Words (msg : List Nat) : List Nat :=
  (chunks64 (sha256Pad msg)).foldl sha256Compress sha256H0

/-- Lowercase hex rendering of a 32-bit word. -/
def word32ToHex (v : Nat) : String :=
  String.mk ((List.range 8).map (fun i => hexDigit ((v >>> (4 * (7 - i))) % 16)))

/-- Lowercase hex SHA-256 digest of a string, as crypto digest hex produces. -/
def sha256Hex (s : String) : String :=
  String.join ((sha256Words (strBytes s)).map word32ToHex)

/-- Code-point comparison of character lists, the order JavaScript's default
Array.sort applies to string keys. -/
def charListLe : List Char → List Char → Bool
  | [], _ => true
  | _ :: _, [] => false
  | a :: as, b :: bs =>
    if a.toNat < b.toNat then true
    else if b.toNat < a.toNat then false
    else charListLe as bs

/-- The string order used when sorting object keys. -/
def jsStrLe (a b : String) : Bool := charListLe a.data b.data

/-- Property read on a JavaScript object: the value at the first occurrence
of the key, if any. -/
def jsLookup (k : String) : List (String × JValue) → Option JValue
  | [] => none
  | (k', v) :: rest => if k' = k then some v else jsLookup k rest

/-- IdempotencyCache.hashParameters from cache.ts: sort the top-level keys,
rebuild the object in sorted key order, JSON-serialize, and take the hex
SHA-256 digest. Only top-level keys are sorted; nested values are serialized
as given. -/
def hashParameters (parameters : List (String × JValue)) : String :=
  let sortedKeys := List.insertionSort (fun a b => jsStrLe a b = true) (parameters.map Prod.fst)
  let sorted := sortedKeys.filterMap (fun k => (jsLookup k parameters).map (fun v => (k, v)))
  sha256Hex (jsonStringify (.jobj sorted))

/-- Canonicalization step with explicit recursion fuel: sort object keys at
every nesting depth reachable within the fuel. Any fuel at least the value's
sizeOf exceeds its nesting depth. -/
def recSortKeysFuel : Nat → JValue → JValue
  | 0, v => v
  | fuel + 1, .jobj fields =>
    .jobj (List.insertionSort (fun a b => jsStrLe a.1 b.1 = true)
      (fields.map (fun f => (f.1, recSortKeysFuel fuel f.2))))
  | fuel + 1, .jarr items => .jarr (items.map (recSortKeysFuel fuel))
  | _ + 1, v => v

/-- Canonical form of a JSON value with object keys sorted at every nesting
depth; two values are equal up to object-key ordering exactly when their
canonical forms coincide. The serialization length bounds the nesting depth,
so it is always enough fuel. -/
def recSortKeys (v : JValue) : JValue := recSortKeysFuel (jsonStringify v).length v

/-- Two parameter objects are equal up to the order of object keys at every
nesting depth: their recursively key-sorted serializations coincide. -/
def keyOrderEquiv (p q : List (String × JValue)) : Bool :=
  jsonStringify (recSortKeys (.jobj p)) = jsonStringify (recSortKeys (.jobj q))

/-- An error-like JavaScript object, as duck-typed by error-handler.ts:
the properties that formatACPError and its helpers inspect. An absent
property is `none`. -/
structure ErrObj where
  type : Option String := none
  code : Option String := none
  message : Option String := none
  param : Option String := none
  request_id : Option String := none
  status : Option Int := none
  statusCode : Option Int := none
  error : Option String := none
  error_type : Option String := none
  detail : Option String := none
deriving DecidableEq

/-- An arbitrary JavaScript failure value reaching formatACPError: null,
undefined, a primitive, an Error instance (name and message, possibly
carrying status and statusCode properties the way HTTP-client errors do),
or an error-like plain object. An Error instance has no type or code
property, so it is never ACP-shaped. -/
inductive ErrValue where
  | vnull
  | vundefined
  | vstr (s : String)
  | vnum (n : Int)
  | vbool (b : Bool)
  | verror (name : String) (message : String) (status : Option Int) (statusCode : Option Int)
  | vobj (o : ErrObj)
deriving DecidableEq

/-- JavaScript String() conversion of a failure value (used only for
primitives in formatACPError). -/
def jsStringOf : ErrValue → String
  | .vnull => "null"
  | .vundefined => "undefined"
  | .vstr s => s
  | .vnum n => toString n
  | .vbool b => if b then "true" else "false"
  | .verror name msg _ _ => name ++ ": " ++ msg
  | .vobj _ => "[object Object]"

/-- JavaScript truthiness of an optional string: present and non-empty. -/
def jsTruthyS : Option String → Bool
  | some s => s ≠ ""
  | none => false

/-- JavaScript `a || b` on optional strings. -/
def jsOrS (a b : Option String) : Option String :=
  if jsTruthyS a then a else b

/-- JavaScript `a || b` where b is a plain string default. -/
def jsStrOr (a : Option String) (b : String) : String :=
  match a with
  | some s => if s = "" then b else s
  | none => b

/-- JavaScript `s || d` on plain strings: the default replaces an empty string. -/
def strFallback (s d : String) : String := if s = "" then d else s

/-- JavaScript `a || b` on optional numbers: zero and absent are falsy. -/
def jsOrI (a b : Option Int) : Option Int :=
  match a with
  | some v => if v = 0 then b else some v
  | none => b

/-- JavaScript truthiness of an optional number. -/
def jsTruthyI : Option Int → Bool
  | some v => v ≠ 0
  | none => false

/-- The `error.status || error.statusCode` read both error-handler.ts and
fal-client.ts perform on an error-like object. -/
def jsStatusOf (o : ErrObj) : Option Int := jsOrI o.status o.statusCode

/-- createACPError from types/acp.ts: a flat error object with optional
param and request_id set only when truthy. -/
def createACPError (type code message : String) (param requestId : Option String) : ErrObj :=
  { type := some type, code := some code, message := some message,
    param := if jsTruthyS param then param else none,
    request_id := if jsTruthyS requestId then requestId else none }

/-- isACPError from error-handler.ts: an object with type, code and message
properties present. -/
def isACPError : ErrValue → Bool
  | .vobj o => o.type.isSome && o.code.isSome && o.message.isSome
  | _ => false

/-- The `context ? context + ": " + message : message` prefixing. -/
def withContext (context : Option String) (message : String) : String :=
  if jsTruthyS context then context.getD "" ++ ": " ++ message else message

/-- handleStandardError from error-handler.ts: classify a JavaScript Error
instance by its name. -/
def handleStandardError (name msg : String) (requestId context : Option String) : ErrObj :=
  let message := withContext context msg
  if name = "TypeError" || name = "RangeError" then
    createACPError "invalid_request" name.toLower message none requestId
  else if name = "TimeoutError" then
    createACPError "service_unavailable" "request_timeout" message none requestId
  else
    createACPError "processing_error" "internal_error" message none requestId

/-- handleHTTPError from error-handler.ts: dispatch on an HTTP status code. -/
def handleHTTPError (status : Int) (message : String) (o : ErrObj) (requestId : Option String) : ErrObj :=
  if status = 400 then
    createACPError "invalid_request" "bad_request" message o.param requestId
  else if status = 401 then
    createACPError "invalid_request" "unauthorized" "Invalid or missing API key" none requestId
  else if status = 403 then
    createACPError "invalid_request" "forbidden" "Access denied" none requestId
  else if status = 404 then
    createACPError "invalid_request" "not_found" (strFallback message "Resource not found") none requestId
  else if status = 409 then
    createACPError "request_not_idempotent" "idempotency_conflict"
      (strFallback message "Idempotency key reused with different parameters") none requestId
  else if status = 422 then
    createACPError "invalid_request" "validation_error" message o.param requestId
  else if status = 429 then
    createACPError "rate_limit_exceeded" "rate_limit_exceeded"
      "Rate limit exceeded. Please try again later." none requestId
  else if 500 ≤ status then
    createACPError "service_unavailable" "service_error" "Service temporarily unavailable" none requestId
  else if 400 ≤ status ∧ status < 500 then
    createACPError "invalid_request" ("http_" ++ toString status) message none requestId
  else
    createACPError "processing_error" "http_error" message none requestId

/-- handleFalError from error-handler.ts: map a provider error_type
discriminator onto the taxonomy. -/
def handleFalError (o : ErrObj) (requestId : Option String) : ErrObj :=
  match o.error_type with
  | some "validation_error" =>
    createACPError "invalid_request" "validation_error"
      (jsStrOr (jsOrS o.message o.detail) "Fal AI error occurred") o.param requestId
  | some "rate_limit_error" =>
    createACPError "rate_limit_exceeded" "rate_limit_exceeded"
      (jsStrOr (jsOrS o.message o.detail) "Fal AI error occurred") none requestId
  | some "service_unavailable" =>
    createACPError "service_unavailable" "fal_service_unavailable"
      (jsStrOr (jsOrS o.message o.detail) "Fal AI error occurred") none requestId
  | _ =>
    createACPError "processing_error" "fal_error"
      (jsStrOr (jsOrS o.message o.detail) "Fal AI error occurred") none requestId

/-- handleObjectError from error-handler.ts: status dispatch, then provider
discriminator, then network codes, then unknown. -/
def handleObjectError (o : ErrObj) (requestId context : Option String) : ErrObj :=
  if jsTruthyI (jsOrI o.status o.statusCode) then
    handleHTTPError ((jsOrI o.status o.statusCode).getD 0)
      (withContext context (jsStrOr (jsOrS o.message o.error) "Unknown error occurred")) o requestId
  else if jsTruthyS o.error_type then
    handleFalError o requestId
  else if o.code = some "ECONNREFUSED" ∨ o.code = some "ETIMEDOUT" then
    createACPError "service_unavailable" "network_error" "Failed to connect to service" none requestId
  else
    createACPError "processing_error" "unknown_error"
      (withContext context (jsStrOr (jsOrS o.message o.error) "Unknown error occurred")) none requestId

/-- formatACPError from error-handler.ts: pass through an already ACP-shaped
object, classify Error instances by name, classify error-like objects, and
stringify primitives. -/
def formatACPError (error : ErrValue) (requestId context : Option String) : ErrObj :=
  match error with
  | .vobj o =>
    if isACPError (.vobj o) then o
    else handleObjectError o requestId context
  | .verror name msg _ _ => handleStandardError name msg requestId context
  | e => createACPError "processing_error" "unknown_error" (jsStringOf e) none requestId

/-- The closed ACPErrorType set from types/acp.ts. -/
def inTaxonomy (t : String) : Bool :=
  t = "invalid_request" || t = "request_not_idempotent" || t = "processing_error" ||
  t = "service_unavailable" || t = "rate_limit_exceeded"

/-- Read on a JavaScript Map backed by an insertion-ordered association list. -/
def mapGet (k : String) : List (String × β) → Option β
  | [] => none
  | (k', v) :: rest => if k' = k then some v else mapGet k rest

/-- Write on a JavaScript Map: replace in place, or append a fresh key. -/
def mapSet (k : String) (v : β) : List (String × β) → List (String × β)
  | [] => [(k, v)]
  | (k', v') :: rest => if k' = k then (k, v) :: rest else (k', v') :: mapSet k v rest

/-- Delete on a JavaScript Map. -/
def mapDelete (k : String) : List (String × β) → List (String × β)
  | [] => []
  | (k', v') :: rest => if k' = k then rest else (k', v') :: mapDelete k rest

/-- IdempotencyEntry from types/acp.ts; the response is opaque to the cache. -/
structure IdempotencyEntry (β : Type) where
  key : String
  paramsHash : String
  response : β
  expiresAt : Nat
deriving DecidableEq

/-- The IdempotencyCache state from cache.ts: the backing map and the
configured time-to-live in milliseconds. -/
structure IdempotencyCache (β : Type) where
  entries : List (String × IdempotencyEntry β)
  ttl : Nat
deriving DecidableEq

/-- The IdempotencyCache constructor: empty map, ttl in seconds scaled to
milliseconds (cleanup-timer plumbing has no cache-semantic effect). -/
def IdempotencyCache.init (β : Type) (ttlSeconds : Nat) : IdempotencyCache β :=
  { entries := [], ttl := ttlSeconds * 1000 }

/-- IdempotencyCache.get from cache.ts, with the clock explicit: returns the
entry on a live digest match, none on a miss (deleting a lazily expired
entry), and throws the 409 conflict on a live digest mismatch. The second
component is the cache state after the call. -/
def IdempotencyCache.get (c : IdempotencyCache β) (now : Nat) (key : String)
    (parameters : List (String × JValue)) :
    Except ErrObj (Option (IdempotencyEntry β)) × IdempotencyCache β :=
  match mapGet key c.entries with
  | none => (.ok none, c)
  | some entry =>
    if now > entry.expiresAt then
      (.ok none, { c with entries := mapDelete key c.entries })
    else
      let paramsHash := hashParameters parameters
      if entry.paramsHash ≠ paramsHash then
        (.error (createACPError "request_not_idempotent" "idempotency_conflict"
          "Idempotency key reused with different parameters" none none), c)
      else
        (.ok (some entry), c)

/-- IdempotencyCache.set from cache.ts: unconditionally store a fresh entry
expiring at now plus ttl. -/
def IdempotencyCache.set (c : IdempotencyCache β) (now : Nat) (key : String)
    (parameters : List (String × JValue)) (response : β) : IdempotencyCache β :=
  let paramsHash := hashParameters parameters
  let expiresAt := now + c.ttl
  let entry : IdempotencyEntry β :=
    { key := key, paramsHash := paramsHash, response := response, expiresAt := expiresAt }
  { c with entries := mapSet key entry c.entries }

/-- The optional-chained `error?.status || error?.statusCode` read performed
on an arbitrary failure value: it duck-types plain objects and Error
instances alike, and yields undefined off primitives, null and undefined. -/
def jsStatusOfValue : ErrValue → Option Int
  | .vobj o => jsStatusOf o
  | .verror _ _ status statusCode => jsOrI status statusCode
  | _ => none

/-- isClientError from fal-client.ts: the resolved status lies in the
400 to 499 range (comparisons against an absent status are false). -/
def isClientError (e : ErrValue) : Bool :=
  match jsStatusOfValue e with
  | some s => decide (400 ≤ s) && decide (s < 500)
  | none => false

/-- One run of the callWithRetry loop from fal-client.ts, from a given
attempt index with the given number of later attempts still allowed
(remaining equals maxRetries minus attempt). The operation is the outcome
of each attempt. Returns the result, the number of attempts executed, and
the list of backoff sleeps performed. -/
def callWithRetryGo (fn : Nat → Except ErrValue α) (initialDelay : Nat) :
    Nat → Nat → Except ErrValue α × Nat × List Nat
  | attempt, remaining =>
    match fn attempt with
    | .ok v => (.ok v, 1, [])
    | .error e =>
      if isClientError e then (.error e, 1, [])
      else
        match remaining with
        | 0 => (.error e, 1, [])
        | r + 1 =>
          let delay := initialDelay * 2 ^ attempt
          let rec' := callWithRetryGo fn initialDelay (attempt + 1) r
          (rec'.1, rec'.2.1 + 1, delay :: rec'.2.2)

/-- callWithRetry from fal-client.ts: attempts 0 through maxRetries, with
exponential backoff initialDelay times 2 to the attempt. -/
def callWithRetry (fn : Nat → Except ErrValue α) (maxRetries initialDelay : Nat) :
    Except ErrValue α × Nat × List Nat :=
  callWithRetryGo fn initialDelay 0 maxRetries

/-- Whether one character list occurs as a prefix of another. -/
def listHasPrefix : List Char → List Char → Bool
  | [], _ => true
  | _ :: _, [] => false
  | p :: ps, c :: cs => p = c && listHasPrefix ps cs

/-- Whether a pattern occurs as a contiguous sublist. -/
def listIncludes (pat : List Char) : List Char → Bool
  | [] => pat.isEmpty
  | c :: rest => listHasPrefix pat (c :: rest) || listIncludes pat rest

/-- JavaScript String.prototype.includes. -/
def strIncludes (s pat : String) : Bool := listIncludes pat.data s.data

/-- A property entry of a JSON schema, as built by getFallbackSchema. -/
structure PropSchema where
  type : String
  description : String
  format : Option String := none
deriving DecidableEq

/-- The slice of a JSONSchema that the modelled code constructs and caches:
a type tag and named properties. -/
structure JSONSchema where
  type : String
  properties : List (String × PropSchema)
deriving DecidableEq

/-- getFallbackSchema from fal-client.ts: a prompt property, plus url
properties inferred from substrings of the model slug. -/
def getFallbackSchema (modelSlug : String) : JSONSchema :=
  let base := [("prompt", ({ type := "string", description := "Input prompt for generation" } : PropSchema))]
  let withImage :=
    if strIncludes modelSlug "image-to-" || strIncludes modelSlug "img2" then
      base ++ [("image_url", ({ type := "string", description := "URL of the input image", format := some "uri" } : PropSchema))]
    else base
  let withAudio :=
    if strIncludes modelSlug "audio-to-" || strIncludes modelSlug "speech" then
      withImage ++ [("audio_url", ({ type := "string", description := "URL of the input audio", format := some "uri" } : PropSchema))]
    else withImage
  let withVideo :=
    if strIncludes modelSlug "video-to-" then
      withAudio ++ [("video_url", ({ type := "string", description := "URL of the input video", format := some "uri" } : PropSchema))]
    else withAudio
  { type := "object", properties := withVideo }

/-- A schema cache entry of FalClientService: the schema and its fetch time. -/
structure SchemaCacheEntry where
  schema : JSONSchema
  timestamp : Nat
deriving DecidableEq

/-- The fetch-and-cache step of fetchSchema: on a successful upstream fetch,
cache and return the schema; on failure, return the fallback without
touching the cache. The last component counts fetch attempts (one). -/
def fetchSchemaAttempt (sc : List (String × SchemaCacheEntry)) (now : Nat)
    (fetchOutcome : Except Unit JSONSchema) (modelSlug : String) :
    JSONSchema × List (String × SchemaCacheEntry) × Nat :=
  match fetchOutcome with
  | .ok schema => (schema, mapSet modelSlug { schema := schema, timestamp := now } sc, 1)
  | .error _ => (getFallbackSchema modelSlug, sc, 1)

/-- fetchSchema from fal-client.ts: serve a fresh cached schema, otherwise
attempt a live fetch with fallback. fetchOutcome stands for the result of
the network fetch fetchSchemaFromAPI would produce now. -/
def fetchSchema (sc : List (String × SchemaCacheEntry)) (schemaTtl now : Nat)
    (fetchOutcome : Except Unit JSONSchema) (modelSlug : String) :
    JSONSchema × List (String × SchemaCacheEntry) × Nat :=
  match mapGet modelSlug sc with
  | some cached =>
    if now - cached.timestamp < schemaTtl then (cached.schema, sc, 0)
    else fetchSchemaAttempt sc now fetchOutcome modelSlug
  | none => fetchSchemaAttempt sc now fetchOutcome modelSlug

/-- Response metadata built by generate in fal-client.ts. -/
structure FalMetadata where
  model : String
  timestamp : Nat
  idempotency_key : String
  cached : Bool
  request_id : Option String := none
deriving DecidableEq

/-- The FalResponse built by generate. -/
structure FalResponse (α : Type) where
  data : α
  request_id : String
  metadata : FalMetadata
deriving DecidableEq

/-- ACPRequestOptions from types/acp.ts (the fields generate reads). -/
structure ACPRequestOptions where
  idempotencyKey : Option String := none
  requestId : Option String := none
deriving DecidableEq

/-- The outcome of one generate call: its result, the idempotency cache
afterwards, and how many upstream calls, cache reads and cache writes it
performed. -/
structure GenOutcome (α : Type) where
  result : Except ErrObj (FalResponse α)
  idem : IdempotencyCache (FalResponse α)
  upstreamCalls : Nat
  cacheGets : Nat
  cacheSets : Nat

/-- The upstream half of generate: callWithRetry around the subscribe call,
response assembly, conditional cache write, and error normalization with
the Generation failed context. -/
def generateUpstream (idem : IdempotencyCache (FalResponse α)) (now maxRetries initialDelay : Nat)
    (subscribe : Nat → Except ErrValue α) (requestId idempotencyKey modelSlug : String)
    (parameters : List (String × JValue)) (options : ACPRequestOptions) (gets : Nat) :
    GenOutcome α :=
  match callWithRetry subscribe maxRetries initialDelay with
  | (.ok data, n, _) =>
    let response : FalResponse α :=
      { data := data, request_id := requestId,
        metadata := { model := modelSlug, timestamp := now, idempotency_key := idempotencyKey,
                      cached := false, request_id := none } }
    if jsTruthyS options.idempotencyKey then
      { result := .ok response,
        idem := idem.set now (jsStrOr options.idempotencyKey "") parameters response,
        upstreamCalls := n, cacheGets := gets, cacheSets := 1 }
    else
      { result := .ok response, idem := idem, upstreamCalls := n, cacheGets := gets, cacheSets := 0 }
  | (.error e, n, _) =>
    { result := .error (formatACPError e (some requestId) (some "Generation failed")),
      idem := idem, upstreamCalls := n, cacheGets := gets, cacheSets := 0 }

/-- generate from fal-client.ts, with the clock, fresh UUIDs and the
upstream call outcomes passed in explicitly: check the idempotency cache
when a key was supplied (rethrowing a conflict, or returning the cached
response flagged cached with the current request id), otherwise perform the
retried upstream call and cache the response under the supplied key. -/
def generate (idem : IdempotencyCache (FalResponse α)) (now maxRetries initialDelay : Nat)
    (subscribe : Nat → Except ErrValue α) (freshRequestId freshIdemKey : String)
    (modelSlug : String) (parameters : List (String × JValue)) (options : ACPRequestOptions) :
    GenOutcome α :=
  let requestId := jsStrOr options.requestId freshRequestId
  let idempotencyKey := jsStrOr options.idempotencyKey freshIdemKey
  if jsTruthyS options.idempotencyKey then
    match idem.get now (jsStrOr options.idempotencyKey "") parameters with
    | (.error e, idem') =>
      { result := .error e, idem := idem', upstreamCalls := 0, cacheGets := 1, cacheSets := 0 }
    | (.ok (some cached), idem') =>
      { result := .ok { cached.response with
          metadata := { cached.response.metadata with cached := true, request_id := some requestId } },
        idem := idem', upstreamCalls := 0, cacheGets := 1, cacheSets := 0 }
    | (.ok none, idem') =>
      generateUpstream idem' now maxRetries initialDelay subscribe requestId idempotencyKey
        modelSlug parameters options 1
  else
    generateUpstream idem now maxRetries initialDelay subscribe requestId idempotencyKey
      modelSlug parameters options 0

/-- A catalog model as the tool generator consumes it (only the slug
participates in tool resolution and invocation). -/
structure FalModel where
  slug : String
deriving DecidableEq

/-- sanitizeSlugToToolName from types/fal.ts: strip a leading fal-ai/ and
replace slash, hyphen and dot by underscores, under a fal_ prefix. -/
def sanitizeSlugToToolName (slug : String) : String :=
  let stripped :=
    if listHasPrefix "fal-ai/".data slug.data then slug.data.drop 7 else slug.data
  "fal_" ++ String.mk (stripped.map (fun c => if c = '/' ∨ c = '-' ∨ c = '.' then '_' else c))

/-- The FalClientService mutable state: the idempotency cache and the
service-level schema cache. -/
structure ClientState (α : Type) where
  idem : IdempotencyCache (FalResponse α)
  schemaCache : List (String × SchemaCacheEntry)

/-- The tools/call handler state from generator.ts: its own schema map in
front of the client state. -/
structure HandlerState (α : Type) where
  toolSchemaCache : List (String × JSONSchema)
  client : ClientState α

/-- Configuration the handler path reads from the service. -/
structure ServerConfig where
  schemaTtl : Nat
  maxRetries : Nat
  initialDelay : Nat

/-- The per-invocation environment: the clock, the outcome a schema fetch
would have now, the outcomes of upstream attempts, and the fresh UUIDs
generate would mint. -/
structure InvocationEnv (α : Type) where
  now : Nat
  fetchOutcome : Except Unit JSONSchema
  subscribe : Nat → Except ErrValue α
  freshRequestId : String
  freshIdemKey : String

/-- A tools/call request (the fields the handler reads). -/
structure ToolCallRequest where
  name : String
  arguments : Option (List (String × JValue)) := none
  metaRequestId : Option String := none
  metaIdempotencyKey : Option String := none

/-- The content of a tools/call response, keeping the structure that the
source serializes to text: the plain not-found object, a flat ACP error, or
a successful response. -/
inductive ToolContent (α : Type) where
  | plainError (text : String)
  | acpError (e : ErrObj)
  | success (r : FalResponse α)
deriving DecidableEq

/-- A tools/call response. -/
structure ToolCallResult (α : Type) where
  content : ToolContent α
  isError : Bool
deriving DecidableEq

/-- createToolErrorResponse from error-handler.ts: the flat error object with
param and request_id included only when truthy. -/
def createToolErrorResponse (e : ErrObj) : ToolCallResult α :=
  { content := .acpError
      { type := e.type, code := e.code, message := e.message,
        param := if jsTruthyS e.param then e.param else none,
        request_id := if jsTruthyS e.request_id then e.request_id else none },
    isError := true }

/-- Effect counts of one handler invocation. -/
structure Trace where
  schemaFetches : Nat
  upstreamCalls : Nat
  cacheGets : Nat
  cacheSets : Nat
deriving DecidableEq

/-- The all-zero trace. -/
def Trace.zero : Trace :=
  { schemaFetches := 0, upstreamCalls := 0, cacheGets := 0, cacheSets := 0 }

/-- The tools/call handler from generator.ts: resolve the tool by sanitized
slug (unknown names get the plain Tool not found error), load the schema
through the handler-level cache, run generate, and serialize the outcome. -/
def toolsCallHandler (models : List FalModel) (cfg : ServerConfig) (hs : HandlerState α)
    (env : InvocationEnv α) (req : ToolCallRequest) :
    ToolCallResult α × HandlerState α × Trace :=
  match models.find? (fun m => sanitizeSlugToToolName m.slug == req.name) with
  | none =>
    ({ content := .plainError ("Tool not found: " ++ req.name), isError := true }, hs, Trace.zero)
  | some model =>
    let loaded :=
      if (mapGet model.slug hs.toolSchemaCache).isSome then (hs, 0)
      else
        let fetched := fetchSchema hs.client.schemaCache cfg.schemaTtl env.now env.fetchOutcome model.slug
        ({ toolSchemaCache := mapSet model.slug fetched.1 hs.toolSchemaCache,
           client := { hs.client with schemaCache := fetched.2.1 } }, fetched.2.2)
    let hs1 := loaded.1
    let params := req.arguments.getD []
    let g := generate hs1.client.idem env.now cfg.maxRetries cfg.initialDelay env.subscribe
      env.freshRequestId env.freshIdemKey model.slug params
      { requestId := req.metaRequestId, idempotencyKey := req.metaIdempotencyKey }
    let hs2 := { hs1 with client := { hs1.client with idem := g.idem } }
    let trace : Trace :=
      { schemaFetches := loaded.2, upstreamCalls := g.upstreamCalls,
        cacheGets := g.cacheGets, cacheSets := g.cacheSets }
    match g.result with
    | .ok response => ({ content := .success response, isError := false }, hs2, trace)
    | .error e =>
      (createToolErrorResponse (formatACPError (.vobj e) none (some ("Tool: " ++ req.name))), hs2, trace)

/-- Whether a tools/call content is the normalized invalid_request not_found
error the specification describes for unknown tools. -/
def isNotFoundACP : ToolContent α → Bool
  | .acpError e => (e.type == some "invalid_request") && (e.code == some "not_found")
  | _ => false

theorem mapGet_mapSet_self (k : String) (v : β) :
    ∀ m : List (String × β), mapGet k (mapSet k v m) = some v
  | [] => by simp [mapGet, mapSet]
  | (k', v') :: rest => by
    by_cases h : k' = k <;>
      simp [mapGet, mapSet, h, mapGet_mapSet_self k v rest]

/-- C1: a live entry whose stored digest differs from the digest of the
supplied parameters makes get throw the request_not_idempotent
idempotency_conflict error and leaves the cache state untouched. -/
theorem idem_get_conflict (c : IdempotencyCache β) (now : Nat) (key : String)
    (params : List (String × JValue)) (entry : IdempotencyEntry β)
    (hfind : mapGet key c.entries = some entry)
    (hlive : ¬ now > entry.expiresAt)
    (hdigest : entry.paramsHash ≠ hashParameters params) :
    IdempotencyCache.get c now key params =
      (.error (createACPError "request_not_idempotent" "idempotency_conflict"
        "Idempotency key reused with different parameters" none none), c) ∧
    (createACPError "request_not_idempotent" "idempotency_conflict"
      "Idempotency key reused with different parameters" none none).type =
        some "request_not_idempotent" ∧
    (createACPError "request_not_idempotent" "idempotency_conflict"
      "Idempotency key reused with different parameters" none none).code =
        some "idempotency_conflict" := by
  refine ⟨?_, rfl, rfl⟩
  simp [IdempotencyCache.get, hfind, if_neg hlive, hdigest]

/-- Concrete cache holding one entry stored for empty parameters. -/
def c1Cache : IdempotencyCache JValue :=
  (IdempotencyCache.init JValue 86400).set 0 "k1" [] .jnull

/-- The entry c1Cache holds. -/
def c1Entry : IdempotencyEntry JValue :=
  { key := "k1", paramsHash := hashParameters [], response := .jnull, expiresAt := 86400000 }

theorem idem_get_conflict_witness :
    mapGet "k1" c1Cache.entries = some c1Entry ∧
    ¬ (500 : Nat) > c1Entry.expiresAt ∧
    c1Entry.paramsHash ≠ hashParameters [("p", .jstr "x")] ∧
    IdempotencyCache.get c1Cache 500 "k1" [("p", .jstr "x")] =
      (.error (createACPError "request_not_idempotent" "idempotency_conflict"
        "Idempotency key reused with different parameters" none none), c1Cache) :=
  ⟨rfl, by decide, by decide,
    (idem_get_conflict c1Cache 500 "k1" [("p", .jstr "x")] c1Entry rfl (by decide) (by decide)).1⟩

/-- C9 (amended): set unconditionally overwrites; after set the entry for
the key is the fresh one with digest of the supplied parameters, the new
response, and expiry now plus ttl, whether or not a live entry existed. -/
theorem idem_set_overwrites (c : IdempotencyCache β) (now : Nat) (key : String)
    (params : List (String × JValue)) (response : β) :
    mapGet key (c.set now key params response).entries =
      some { key := key, paramsHash := hashParameters params,
             response := response, expiresAt := now + c.ttl } := by
  simp [IdempotencyCache.set, mapGet_mapSet_self]

/-- A cache with one live entry, and the same cache after re-storing the
same key with identical parameters at a later instant. -/
def c9First : IdempotencyCache JValue :=
  (IdempotencyCache.init JValue 1).set 0 "k" [] .jnull

/-- The re-store of the identical key and parameters at time 500. -/
def c9Second : IdempotencyCache JValue := c9First.set 500 "k" [] .jnull

theorem jsLookup_mem_of_eq_some {p : List (String × JValue)} {k : String} {v : JValue}
    (h : jsLookup k p = some v) : (k, v) ∈ p := by
  induction p with
  | nil => simp [jsLookup] at h
  | cons hd tl ih =>
    obtain ⟨k', v'⟩ := hd
    by_cases hk : k' = k
    · subst hk
      simp [jsLookup] at h
      simp [h]
    · simp [jsLookup, hk] at h
      exact List.mem_cons_of_mem _ (ih h)

theorem jsLookup_eq_some_of_mem {p : List (String × JValue)} {k : String} {v : JValue}
    (hnd : (p.map Prod.fst).Nodup) (hmem : (k, v) ∈ p) : jsLookup k p = some v := by
  induction p with
  | nil => simp at hmem
  | cons hd tl ih =>
    obtain ⟨k', v'⟩ := hd
    rcases List.mem_cons.mp hmem with heq | htl
    · obtain ⟨h1, h2⟩ := Prod.mk.injEq .. ▸ heq.symm
      simp [jsLookup, h1, h2]
    · have hk : k' ≠ k := by
        intro hkk
        subst hkk
        rw [List.map_cons, List.nodup_cons] at hnd
        exact hnd.1 (List.mem_map.mpr ⟨(k', v), htl, rfl⟩)
      have hnd' : (tl.map Prod.fst).Nodup := by
        rw [List.map_cons, List.nodup_cons] at hnd
        exact hnd.2
      simp [jsLookup, hk, ih hnd' htl]

theorem jsLookup_eq_none_iff {p : List (String × JValue)} {k : String} :
    jsLookup k p = none ↔ k ∉ p.map Prod.fst := by
  induction p with
  | nil => simp [jsLookup]
  | cons hd tl ih =>
    obtain ⟨k', v'⟩ := hd
    by_cases hk : k' = k
    · subst hk
      simp [jsLookup]
    · simp only [jsLookup, if_neg hk, List.map_cons, List.mem_cons]
      rw [ih]
      constructor
      · intro h hmem
        rcases hmem with h1 | h2
        · exact hk h1.symm
        · exact h h2
      · intro h hmem
        exact h (Or.inr hmem)

theorem jsLookup_perm {p q : List (String × JValue)} (hperm : p.Perm q)
    (hnd : (p.map Prod.fst).Nodup) (k : String) : jsLookup k p = jsLookup k q := by
  cases hp : jsLookup k p with
  | none =>
    have hk : k ∉ p.map Prod.fst := jsLookup_eq_none_iff.mp hp
    have hk' : k ∉ q.map Prod.fst := fun hmem =>
      hk (((hperm.map Prod.fst).mem_iff).mpr hmem)
    exact (jsLookup_eq_none_iff.mpr hk').symm
  | some v =>
    have hmem : (k, v) ∈ q := hperm.mem_iff.mp (jsLookup_mem_of_eq_some hp)
    have hndq : (q.map Prod.fst).Nodup := ((hperm.map Prod.fst).nodup_iff).mp hnd
    exact (jsLookup_eq_some_of_mem hndq hmem).symm

theorem filterMap_congr_fn {f g : α → Option β} :
    ∀ l : List α, (∀ a ∈ l, f a = g a) → l.filterMap f = l.filterMap g
  | [], _ => rfl
  | a :: l, h => by
    have hg := h a (by simp)
    simp only [List.filterMap_cons, hg, filterMap_congr_fn l (fun b hb => h b (by simp [hb]))]

theorem charListLe_total : ∀ a b : List Char, charListLe a b = true ∨ charListLe b a = true
  | [], _ => Or.inl rfl
  | _ :: _, [] => Or.inr rfl
  | a :: as, b :: bs => by
    by_cases h1 : a.toNat < b.toNat
    · left
      simp [charListLe, h1]
    by_cases h2 : b.toNat < a.toNat
    · right
      simp [charListLe, h2]
    · rcases charListLe_total as bs with h | h
      · left
        simp [charListLe, h1, h2, h]
      · right
        simp [charListLe, h1, h2, h]

theorem charListLe_trans : ∀ a b c : List Char,
    charListLe a b = true → charListLe b c = true → charListLe a c = true
  | [], _, _, _, _ => rfl
  | _ :: _, [], _, hab, _ => by simp [charListLe] at hab
  | _ :: _, _ :: _, [], _, hbc => by simp [charListLe] at hbc
  | a :: as, b :: bs, c :: cs, hab, hbc => by
    simp only [charListLe] at hab hbc ⊢
    by_cases h1 : a.toNat < b.toNat
    · by_cases h2 : b.toNat < c.toNat
      · simp [show a.toNat < c.toNat by omega]
      · by_cases h3 : c.toNat < b.toNat
        · simp [h2, h3] at hbc
        · simp [show a.toNat < c.toNat by omega]
    · by_cases h2 : b.toNat < a.toNat
      · simp [h1, h2] at hab
      · by_cases h3 : b.toNat < c.toNat
        · simp [show a.toNat < c.toNat by omega]
        · by_cases h4 : c.toNat < b.toNat
          · simp [h3, h4] at hbc
          · have h5 : ¬ a.toNat < c.toNat := by omega
            have h6 : ¬ c.toNat < a.toNat := by omega
            simp [h1, h2] at hab
            simp [h3, h4] at hbc
            simp [h5, h6]
            exact charListLe_trans as bs cs hab hbc

theorem charListLe_antisymm : ∀ a b : List Char,
    charListLe a b = true → charListLe b a = true → a = b
  | [], [], _, _ => rfl
  | [], _ :: _, _, hba => by simp [charListLe] at hba
  | _ :: _, [], hab, _ => by simp [charListLe] at hab
  | a :: as, b :: bs, hab, hba => by
    simp only [charListLe] at hab hba
    by_cases h1 : a.toNat < b.toNat
    · have h2 : ¬ b.toNat < a.toNat := by omega
      simp [h1, h2] at hba
    by_cases h2 : b.toNat < a.toNat
    · simp [h1, h2] at hab
    · simp [h1, h2] at hab hba
      have heq : a.toNat = b.toNat := by omega
      have hc : a = b := Char.ext (UInt32.toNat.inj heq)
      rw [hc, charListLe_antisymm as bs hab hba]

/-- The key order is total. -/
instance : IsTotal String (fun a b => jsStrLe a b = true) :=
  ⟨fun a b => charListLe_total a.data b.data⟩

/-- The key order is transitive. -/
instance : IsTrans String (fun a b => jsStrLe a b = true) :=
  ⟨fun a b c => charListLe_trans a.data b.data c.data⟩

/-- The key order is antisymmetric. -/
instance : IsAntisymm String (fun a b => jsStrLe a b = true) :=
  ⟨fun a b hab hba => by
    cases a
    cases b
    exact congrArg String.mk (charListLe_antisymm _ _ hab hba)⟩

/-- C2 (amended): the digest is invariant under permutations of the
top-level fields (keys distinct), because hashParameters sorts the
top-level keys before serializing; nested key order is not canonicalized. -/
theorem hashParameters_top_level_perm {p q : List (String × JValue)} (hperm : p.Perm q)
    (hnd : (p.map Prod.fst).Nodup) : hashParameters p = hashParameters q := by
  have hkeys : (p.map Prod.fst).Perm (q.map Prod.fst) := hperm.map Prod.fst
  have hsort : List.insertionSort (fun a b => jsStrLe a b = true) (p.map Prod.fst) =
      List.insertionSort (fun a b => jsStrLe a b = true) (q.map Prod.fst) :=
    List.eq_of_perm_of_sorted
      ((List.perm_insertionSort _ _).trans (hkeys.trans (List.perm_insertionSort _ _).symm))
      (List.sorted_insertionSort _ _) (List.sorted_insertionSort _ _)
  have hbody : (List.insertionSort (fun a b => jsStrLe a b = true) (p.map Prod.fst)).filterMap
      (fun k => (jsLookup k p).map (fun v => (k, v))) =
      (List.insertionSort (fun a b => jsStrLe a b = true) (q.map Prod.fst)).filterMap
      (fun k => (jsLookup k q).map (fun v => (k, v))) := by
    rw [hsort]
    exact filterMap_congr_fn _ (fun a _ => by rw [jsLookup_perm hperm hnd a])
  simp only [hashParameters]
  exact congrArg sha256Hex (congrArg jsonStringify (congrArg JValue.jobj hbody))

/-- Two parameter objects equal up to the order of the keys of a nested
object, used to refute depth-invariance of the digest. -/
def c2Left : List (String × JValue) := [("a", .jobj [("y", .jnum 1), ("x", .jnum 2)])]

/-- The same object with the nested keys in the other order. -/
def c2Right : List (String × JValue) := [("a", .jobj [("x", .jnum 2), ("y", .jnum 1)])]

theorem hashParameters_nested_counterexample :
    keyOrderEquiv c2Left c2Right = true ∧
    hashParameters c2Left ≠ hashParameters c2Right := by
  refine ⟨by decide, by decide⟩

theorem hashParameters_top_level_perm_witness :
    hashParameters [("b", .jnum 2), ("a", .jstr "x")] =
      hashParameters [("a", .jstr "x"), ("b", .jnum 2)] :=
  hashParameters_top_level_perm
    (List.Perm.swap ("a", JValue.jstr "x") ("b", JValue.jnum 2) []) (by decide)

theorem isClientError_of_status (o : ErrObj) (s : Int) (hs : jsStatusOf o = some s)
    (h4 : 400 ≤ s) (h5 : s < 500) : isClientError (.vobj o) = true := by
  simp [isClientError, jsStatusOfValue, hs, h4, h5]

theorem isClientError_false_of_ge500 (e : ErrValue) (s : Int) (hs : jsStatusOfValue e = some s)
    (h5 : 500 ≤ s) : isClientError e = false := by
  simp only [isClientError, hs]
  simp
  omega

theorem callWithRetry_client_first (fn : Nat → Except ErrValue α) (maxRetries d : Nat)
    (e : ErrValue) (hf : fn 0 = .error e) (hc : isClientError e = true) :
    callWithRetry fn maxRetries d = (.error e, 1, []) := by
  unfold callWithRetry callWithRetryGo
  simp [hf, hc]

theorem callWithRetryGo_allFail (fn : Nat → Except ErrValue α) (d : Nat) (es : Nat → ErrValue)
    (hf : ∀ i, fn i = .error (es i)) (hnc : ∀ i, isClientError (es i) = false) :
    ∀ (remaining attempt : Nat), callWithRetryGo fn d attempt remaining =
      (.error (es (attempt + remaining)), remaining + 1,
        (List.range remaining).map (fun j => d * 2 ^ (attempt + j)))
  | 0, attempt => by
    unfold callWithRetryGo
    simp [hf attempt, hnc attempt]
  | r + 1, attempt => by
    unfold callWithRetryGo
    simp only [hf attempt, hnc attempt, Bool.false_eq_true, if_false]
    rw [callWithRetryGo_allFail fn d es hf hnc r (attempt + 1)]
    refine Prod.ext ?_ (Prod.ext ?_ ?_) <;> simp
    · rw [Nat.add_comm r 1, ← Nat.add_assoc]
    · rw [List.range_succ_eq_map, List.map_cons, List.map_map]
      rw [Nat.add_zero]
      refine List.cons_eq_cons.mpr ⟨rfl, ?_⟩
      apply List.map_congr_left
      intro j _
      simp only [Function.comp_apply]
      have harith : attempt + Nat.succ j = attempt + 1 + j := by omega
      rw [harith]

/-- C4: an operation whose first attempt fails with a status in the 400 to
499 range is executed exactly once: no sleeps, the failure propagated
immediately, whatever the retry budget. -/
theorem retry_client_error_once (fn : Nat → Except ErrValue α) (maxRetries initialDelay : Nat)
    (o : ErrObj) (s : Int) (hf : fn 0 = .error (.vobj o)) (hs : jsStatusOf o = some s)
    (h4 : 400 ≤ s) (h5 : s < 500) :
    callWithRetry fn maxRetries initialDelay = (.error (.vobj o), 1, []) :=
  callWithRetry_client_first fn maxRetries initialDelay _ hf (isClientError_of_status o s hs h4 h5)

/-- The object error carrying status 404 used to witness the no-retry rule. -/
def err404 : ErrObj := { status := some 404, message := some "Model not found" }

theorem retry_client_error_once_witness :
    callWithRetry (fun _ => (.error (.vobj err404) : Except ErrValue Unit)) 4 2000 =
      (.error (.vobj err404), 1, []) :=
  retry_client_error_once _ 4 2000 err404 404 rfl rfl (by decide) (by decide)

/-- The status by which handleHTTPError classifies server errors. -/
theorem handleHTTPError_ge500 (s : Int) (msg : String) (o : ErrObj) (rid : Option String)
    (h : 500 ≤ s) : handleHTTPError s msg o rid =
      createACPError "service_unavailable" "service_error" "Service temporarily unavailable"
        none rid := by
  unfold handleHTTPError
  rw [if_neg (by omega), if_neg (by omega), if_neg (by omega), if_neg (by omega),
    if_neg (by omega), if_neg (by omega), if_neg (by omega), if_pos h]

/-- C3 (amended): an operation whose every attempt fails with a failure
whose resolved status is 500-class is executed exactly maxRetries plus one
times with the exponential backoff delays and the last failure propagates;
the normalization of that failure then depends on its shape: a plain object
failure that is not already ACP-shaped becomes the service_unavailable
service_error, while an Error instance is routed by the instanceof-Error
check to handleStandardError, so a generic such error (name none of
TypeError, RangeError, TimeoutError) becomes processing_error
internal_error despite its 500-class status. -/
theorem retry_server_errors_exhaust (fn : Nat → Except ErrValue α)
    (maxRetries initialDelay : Nat) (es : Nat → ErrValue) (sts : Nat → Int) (rid : Option String)
    (hf : ∀ i, fn i = .error (es i))
    (hst : ∀ i, jsStatusOfValue (es i) = some (sts i))
    (h500 : ∀ i, 500 ≤ sts i) :
    (callWithRetry fn maxRetries initialDelay =
      (.error (es maxRetries), maxRetries + 1,
        (List.range maxRetries).map (fun j => initialDelay * 2 ^ j))) ∧
    (∀ o : ErrObj, es maxRetries = .vobj o → isACPError (.vobj o) = false →
      formatACPError (es maxRetries) rid (some "Generation failed") =
        createACPError "service_unavailable" "service_error" "Service temporarily unavailable"
          none rid) ∧
    (∀ (name msg : String) (st stc : Option Int),
      es maxRetries = .verror name msg st stc →
      name ≠ "TypeError" → name ≠ "RangeError" → name ≠ "TimeoutError" →
      formatACPError (es maxRetries) rid (some "Generation failed") =
        createACPError "processing_error" "internal_error"
          (withContext (some "Generation failed") msg) none rid) := by
  refine ⟨?_, ?_, ?_⟩
  · have hnc : ∀ i, isClientError (es i) = false := fun i =>
      isClientError_false_of_ge500 (es i) (sts i) (hst i) (h500 i)
    have := callWithRetryGo_allFail fn initialDelay es hf hnc maxRetries 0
    unfold callWithRetry
    rw [this]
    simp
  · intro o heq hnacp
    have hso : jsStatusOf o = some (sts maxRetries) := by
      have := hst maxRetries
      rw [heq] at this
      exact this
    have htruthy : jsTruthyI (some (sts maxRetries)) = true := by
      simp only [jsTruthyI, ne_eq, decide_not]
      have := h500 maxRetries
      simp
      omega
    rw [heq]
    simp only [formatACPError, hnacp, Bool.false_eq_true, if_false]
    unfold handleObjectError
    rw [show jsOrI o.status o.statusCode = some (sts maxRetries) from hso]
    simp only [htruthy, if_true, Option.getD_some]
    exact handleHTTPError_ge500 _ _ _ _ (h500 maxRetries)
  · intro name msg st stc heq hty hra hto
    rw [heq]
    simp only [formatACPError]
    unfold handleStandardError
    rw [if_neg (by simp [hty, hra]), if_neg hto]

/-- The bare 503 object failure used to witness retry exhaustion. -/
def err503 : ErrObj := { status := some 503 }

/-- An HTTP-client ApiError instance carrying status 503, the Error-shaped
500-class failure. -/
def errApi503 : ErrValue := .verror "ApiError" "Service Unavailable" (some 503) none

theorem retry_server_errors_exhaust_witness :
    (callWithRetry (fun _ => (.error (.vobj err503) : Except ErrValue Unit)) 2 7 =
      (.error (.vobj err503), 3, [7, 14]) ∧
    formatACPError (.vobj err503) none (some "Generation failed") =
      createACPError "service_unavailable" "service_error" "Service temporarily unavailable"
        none none) ∧
    (callWithRetry (fun _ => (.error errApi503 : Except ErrValue Unit)) 2 7 =
      (.error errApi503, 3, [7, 14]) ∧
    formatACPError errApi503 none (some "Generation failed") =
      createACPError "processing_error" "internal_error"
        "Generation failed: Service Unavailable" none none) := by
  have h1 := retry_server_errors_exhaust (fun _ => (.error (.vobj err503) : Except ErrValue Unit))
    2 7 (fun _ => .vobj err503) (fun _ => 503) none (fun _ => rfl) (fun _ => rfl)
    (fun _ => (by decide : (500 : Int) ≤ 503))
  have h2 := retry_server_errors_exhaust (fun _ => (.error errApi503 : Except ErrValue Unit))
    2 7 (fun _ => errApi503) (fun _ => 503) none (fun _ => rfl) (fun _ => rfl)
    (fun _ => (by decide : (500 : Int) ≤ 503))
  refine ⟨⟨by rw [h1.1]; rfl, h1.2.1 err503 rfl rfl⟩,
    ⟨by rw [h2.1]; rfl, ?_⟩⟩
  have h3 := h2.2.2 "ApiError" "Service Unavailable" (some 503) none rfl
    (by decide) (by decide) (by decide)
  exact h3

/-- An object failure that is 500-class and already ACP-shaped, refuting the
normalization clause of the retry-bound claim. -/
def errShaped500 : ErrObj :=
  { type := some "custom_type", code := some "custom_code", message := some "m", status := some 500 }

theorem retry_server_error_not_normalized_counterexample :
    callWithRetry (fun _ => (.error (.vobj errShaped500) : Except ErrValue Unit)) 2 1 =
      (.error (.vobj errShaped500), 3, [1, 2]) ∧
    formatACPError (.vobj errShaped500) (some "r") (some "Generation failed") = errShaped500 ∧
    (formatACPError (.vobj errShaped500) (some "r") (some "Generation failed")).type ≠
      some "service_unavailable" :=
  ⟨rfl, rfl, by decide⟩

/-- C5 (amended): a failure carrying status 429 falls inside the 400 to 499
client range of isClientError, so the invoker propagates it immediately
after a single attempt with no backoff, whatever the retry budget. -/
theorem retry_429_propagates_immediately (fn : Nat → Except ErrValue α)
    (maxRetries initialDelay : Nat) (o : ErrObj)
    (hf : fn 0 = .error (.vobj o)) (hs : jsStatusOf o = some 429) :
    callWithRetry fn maxRetries initialDelay = (.error (.vobj o), 1, []) ∧
    isClientError (.vobj o) = true := by
  have hc : isClientError (.vobj o) = true :=
    isClientError_of_status o 429 hs (by omega) (by omega)
  exact ⟨callWithRetry_client_first fn maxRetries initialDelay _ hf hc, hc⟩

/-- The bare 429 failure. -/
def err429 : ErrObj := { status := some 429 }

theorem retry_429_propagates_immediately_witness :
    callWithRetry (fun _ => (.error (.vobj err429) : Except ErrValue Unit)) 4 2000 =
      (.error (.vobj err429), 1, []) ∧
    isClientError (.vobj err429) = true :=
  retry_429_propagates_immediately (fun _ => (.error (.vobj err429) : Except ErrValue Unit))
    4 2000 err429 rfl rfl

theorem retry_429_not_retried_counterexample :
    callWithRetry (fun _ => (.error (.vobj { status := some 429 }) : Except ErrValue Unit)) 3 5 =
      (.error (.vobj { status := some 429 }), 1, []) ∧
    (3 : Nat) > 0 ∧
    isClientError (.vobj { status := some 429 }) = true :=
  ⟨rfl, by decide, rfl⟩

theorem isACPError_createACPError (t c m : String) (p r : Option String) :
    isACPError (.vobj (createACPError t c m p r)) = true := rfl

theorem isACPError_handleStandardError (name msg : String) (rid ctx : Option String) :
    isACPError (.vobj (handleStandardError name msg rid ctx)) = true := by
  unfold handleStandardError
  split_ifs <;> exact isACPError_createACPError ..

theorem isACPError_handleHTTPError (s : Int) (msg : String) (o : ErrObj) (rid : Option String) :
    isACPError (.vobj (handleHTTPError s msg o rid)) = true := by
  unfold handleHTTPError
  split_ifs <;> exact isACPError_createACPError ..

theorem isACPError_handleFalError (o : ErrObj) (rid : Option String) :
    isACPError (.vobj (handleFalError o rid)) = true := by
  unfold handleFalError
  split <;> exact isACPError_createACPError ..

theorem isACPError_handleObjectError (o : ErrObj) (rid ctx : Option String) :
    isACPError (.vobj (handleObjectError o rid ctx)) = true := by
  unfold handleObjectError
  split_ifs <;>
    first
      | exact isACPError_handleHTTPError ..
      | exact isACPError_handleFalError ..
      | exact isACPError_createACPError ..

theorem isACPError_formatACPError (e : ErrValue) (rid ctx : Option String) :
    isACPError (.vobj (formatACPError e rid ctx)) = true := by
  cases e with
  | vobj o =>
    by_cases h : isACPError (.vobj o)
    · simp [formatACPError, h]
    · simp only [formatACPError, h, Bool.false_eq_true, if_false]
      exact isACPError_handleObjectError ..
  | verror name msg st stc =>
    simp only [formatACPError]
    exact isACPError_handleStandardError ..
  | vnull => exact isACPError_createACPError ..
  | vundefined => exact isACPError_createACPError ..
  | vstr s => exact isACPError_createACPError ..
  | vnum n => exact isACPError_createACPError ..
  | vbool b => exact isACPError_createACPError ..

theorem formatACPError_passthrough (o : ErrObj) (rid ctx : Option String)
    (h : isACPError (.vobj o) = true) : formatACPError (.vobj o) rid ctx = o := by
  simp [formatACPError, h]

/-- C6: normalization is idempotent on every input, and an already
ACP-shaped object passes through unchanged, keeping its type, code,
message, param and request_id, with no re-wrapping and no overwriting of
the request_id by the requestId argument. -/
theorem formatACPError_idempotent :
    (∀ (x : ErrValue) (rid ctx rid2 ctx2 : Option String),
      formatACPError (.vobj (formatACPError x rid ctx)) rid2 ctx2 = formatACPError x rid ctx) ∧
    (∀ (o : ErrObj) (rid ctx : Option String), isACPError (.vobj o) = true →
      formatACPError (.vobj o) rid ctx = o) := by
  constructor
  · intro x rid ctx rid2 ctx2
    exact formatACPError_passthrough _ _ _ (isACPError_formatACPError x rid ctx)
  · exact formatACPError_passthrough

/-- A normalized error with a request id, used to witness passthrough. -/
def ackErr : ErrObj :=
  createACPError "invalid_request" "test_error" "Test message" (some "$.test.field") (some "req-123")

theorem formatACPError_idempotent_witness :
    formatACPError (.vobj ackErr) (some "req-456") (some "later") = ackErr :=
  formatACPError_idempotent.2 ackErr (some "req-456") (some "later") rfl

/-- C10: the already-normalized check is purely structural: any object with
type, code and message present is returned unchanged, whatever its type
value, so the output type is not confined to the closed taxonomy. -/
theorem formatACPError_structural_passthrough :
    (∀ (o : ErrObj) (rid ctx : Option String),
      o.type.isSome = true → o.code.isSome = true → o.message.isSome = true →
      formatACPError (.vobj o) rid ctx = o) ∧
    (∃ (x : ErrValue) (rid ctx : Option String) (t : String),
      (formatACPError x rid ctx).type = some t ∧ inTaxonomy t = false) := by
  constructor
  · intro o rid ctx h1 h2 h3
    exact formatACPError_passthrough o rid ctx (by simp [isACPError, h1, h2, h3])
  · exact ⟨.vobj { type := some "banana", code := some "c", message := some "m" },
      none, none, "banana", rfl, by decide⟩

/-- An object with the three structural fields, an out-of-taxonomy type and
arbitrary extra fields, used to witness the structural passthrough. -/
def oddErr : ErrObj :=
  { type := some "banana", code := some "x", message := some "y", status := some 500 }

theorem formatACPError_structural_passthrough_witness :
    formatACPError (.vobj oddErr) (some "rid") none = oddErr :=
  formatACPError_structural_passthrough.1 oddErr (some "rid") none rfl rfl rfl

/-- C7 (amended): an invocation whose name matches no registered tool
returns the plain Tool not found error text with isError set, leaves the
handler state untouched, and performs no schema fetch, no upstream call and
no idempotency-cache read or write. -/
theorem unknown_tool_no_effects {α : Type} (models : List FalModel) (cfg : ServerConfig)
    (hs : HandlerState α) (env : InvocationEnv α) (req : ToolCallRequest)
    (hunknown : ∀ m ∈ models, sanitizeSlugToToolName m.slug ≠ req.name) :
    toolsCallHandler models cfg hs env req =
      ({ content := .plainError ("Tool not found: " ++ req.name), isError := true },
        hs, Trace.zero) := by
  have hfind : models.find? (fun m => sanitizeSlugToToolName m.slug == req.name) = none :=
    List.find?_eq_none.mpr (fun m hm => by
      simp only [beq_iff_eq]
      exact hunknown m hm)
  simp [toolsCallHandler, hfind]

/-- The one-model catalog used for concrete handler runs. -/
def modelsOne : List FalModel := [{ slug := "fal-ai/flux-pro" }]

/-- The configuration used for concrete handler runs. -/
def cfgOne : ServerConfig := { schemaTtl := 3600000, maxRetries := 4, initialDelay := 2000 }

/-- The empty handler state used for concrete handler runs. -/
def hsEmpty : HandlerState Unit :=
  { toolSchemaCache := [],
    client := { idem := IdempotencyCache.init (FalResponse Unit) 86400, schemaCache := [] } }

/-- An environment whose schema fetch fails and whose upstream call
succeeds immediately. -/
def envFetchFails : InvocationEnv Unit :=
  { now := 0, fetchOutcome := .error (), subscribe := fun _ => .ok (),
    freshRequestId := "r1", freshIdemKey := "k1" }

theorem unknown_tool_no_effects_witness :
    toolsCallHandler modelsOne cfgOne hsEmpty envFetchFails { name := "mystery" } =
      ({ content := .plainError "Tool not found: mystery", isError := true },
        hsEmpty, Trace.zero) :=
  unknown_tool_no_effects modelsOne cfgOne hsEmpty envFetchFails { name := "mystery" }
    (by decide)

/-- The handler run on an unknown tool name, for the counterexample. -/
def unknownRun : ToolCallResult Unit × HandlerState Unit × Trace :=
  toolsCallHandler modelsOne cfgOne hsEmpty envFetchFails { name := "nope" }

theorem unknown_tool_not_acp_counterexample :
    unknownRun.1 = { content := .plainError "Tool not found: nope", isError := true } ∧
    isNotFoundACP unknownRun.1.content = false ∧
    unknownRun.2.2 = Trace.zero :=
  ⟨rfl, rfl, rfl⟩

/-- C8 (amended): fetchSchema itself never stores the fallback (a fresh
slug's failed fetch leaves the service schema cache unchanged, and any
later direct fetchSchema on it attempts the fetch again), but the
tools/call handler caches whatever schema came back, fallback included, in
its own schema map, and once that map holds the slug the handler performs
no fetch at all. -/
theorem fallback_not_cached_in_client {α : Type} :
    (∀ (sc : List (String × SchemaCacheEntry)) (ttl now now2 : Nat) (slug : String)
      (outcome2 : Except Unit JSONSchema),
      mapGet slug sc = none →
      fetchSchema sc ttl now (.error ()) slug = (getFallbackSchema slug, sc, 1) ∧
      (fetchSchema sc ttl now2 outcome2 slug).2.2 = 1) ∧
    (∀ (models : List FalModel) (cfg : ServerConfig) (hs : HandlerState α)
      (env : InvocationEnv α) (req : ToolCallRequest) (model : FalModel),
      models.find? (fun m => sanitizeSlugToToolName m.slug == req.name) = some model →
      mapGet model.slug hs.toolSchemaCache = none →
      mapGet model.slug hs.client.schemaCache = none →
      env.fetchOutcome = .error () →
      mapGet model.slug (toolsCallHandler models cfg hs env req).2.1.toolSchemaCache =
        some (getFallbackSchema model.slug)) ∧
    (∀ (models : List FalModel) (cfg : ServerConfig) (hs : HandlerState α)
      (env : InvocationEnv α) (req : ToolCallRequest) (model : FalModel),
      models.find? (fun m => sanitizeSlugToToolName m.slug == req.name) = some model →
      (mapGet model.slug hs.toolSchemaCache).isSome = true →
      (toolsCallHandler models cfg hs env req).2.2.schemaFetches = 0) := by
  refine ⟨?_, ?_, ?_⟩
  · intro sc ttl now now2 slug outcome2 hmiss
    constructor
    · simp [fetchSchema, hmiss, fetchSchemaAttempt]
    · cases outcome2 <;> simp [fetchSchema, hmiss, fetchSchemaAttempt]
  · intro models cfg hs env req model hfind hmiss hcmiss hfetch
    have hcached : (mapGet model.slug hs.toolSchemaCache).isSome = false := by
      rw [hmiss]
      rfl
    simp only [toolsCallHandler, hfind]
    simp only [hcached, Bool.false_eq_true, if_false, fetchSchema, hmiss, hcmiss, hfetch,
      fetchSchemaAttempt]
    cases hres : (generate hs.client.idem env.now cfg.maxRetries cfg.initialDelay env.subscribe
        env.freshRequestId env.freshIdemKey model.slug (req.arguments.getD [])
        { requestId := req.metaRequestId, idempotencyKey := req.metaIdempotencyKey }).result <;>
      simp [hres, mapGet_mapSet_self]
  · intro models cfg hs env req model hfind hcached
    simp only [toolsCallHandler, hfind]
    simp only [hcached, if_true]
    cases hres : (generate hs.client.idem env.now cfg.maxRetries cfg.initialDelay env.subscribe
        env.freshRequestId env.freshIdemKey model.slug (req.arguments.getD [])
        { requestId := req.metaRequestId, idempotencyKey := req.metaIdempotencyKey }).result <;>
      simp [hres]

/-- The schema a successful second fetch would return. -/
def freshSchema : JSONSchema :=
  { type := "object",
    properties := [("prompt", { type := "string", description := "live", format := none })] }

/-- An environment whose schema fetch now succeeds. -/
def envFetchWorks : InvocationEnv Unit :=
  { now := 10, fetchOutcome := .ok freshSchema, subscribe := fun _ => .ok (),
    freshRequestId := "r2", freshIdemKey := "k2" }

/-- The request invoking the registered flux-pro tool. -/
def reqFlux : ToolCallRequest := { name := "fal_flux_pro" }

/-- First invocation: the schema fetch fails. -/
def fluxRun1 : ToolCallResult Unit × HandlerState Unit × Trace :=
  toolsCallHandler modelsOne cfgOne hsEmpty envFetchFails reqFlux

/-- Second invocation: the fetch would now succeed, but the handler cache
already holds the fallback. -/
def fluxRun2 : ToolCallResult Unit × HandlerState Unit × Trace :=
  toolsCallHandler modelsOne cfgOne fluxRun1.2.1 envFetchWorks reqFlux

theorem fallback_schema_sticks_counterexample :
    fluxRun1.2.2.schemaFetches = 1 ∧
    mapGet "fal-ai/flux-pro" fluxRun1.2.1.toolSchemaCache =
      some (getFallbackSchema "fal-ai/flux-pro") ∧
    fluxRun2.2.2.schemaFetches = 0 ∧
    mapGet "fal-ai/flux-pro" fluxRun2.2.1.toolSchemaCache =
      some (getFallbackSchema "fal-ai/flux-pro") :=
  ⟨rfl, rfl, rfl, rfl⟩

theorem fallback_not_cached_in_client_witness :
    fetchSchema [] 3600000 5 (.error ()) "some-model" =
      (getFallbackSchema "some-model", [], 1) ∧
    mapGet "fal-ai/flux-pro" (toolsCallHandler modelsOne cfgOne hsEmpty envFetchFails
      reqFlux).2.1.toolSchemaCache = some (getFallbackSchema "fal-ai/flux-pro") ∧
    (toolsCallHandler modelsOne cfgOne fluxRun1.2.1 envFetchWorks reqFlux).2.2.schemaFetches = 0 :=
  ⟨((@fallback_not_cached_in_client Unit).1 [] 3600000 5 0 "some-model" (.error ()) rfl).1,
    fallback_not_cached_in_client.2.1 modelsOne cfgOne hsEmpty envFetchFails reqFlux
      { slug := "fal-ai/flux-pro" } rfl rfl rfl rfl,
    fallback_not_cached_in_client.2.2 modelsOne cfgOne fluxRun1.2.1 envFetchWorks reqFlux
      { slug := "fal-ai/flux-pro" } rfl rfl⟩

theorem idem_set_not_noop_counterexample :
    mapGet "k" c9First.entries =
      some { key := "k", paramsHash := hashParameters [], response := .jnull, expiresAt := 1000 } ∧
    ¬ (500 : Nat) > 1000 ∧
    mapGet "k" c9Second.entries =
      some { key := "k", paramsHash := hashParameters [], response := .jnull, expiresAt := 1500 } ∧
    (1500 : Nat) ≠ 1000 :=
  ⟨rfl, by decide, rfl, by decide⟩

end FalMCP
